import Mathlib

/-!
Verification of the persisted key-value utility (src/hooks/useLocalStorage.ts)
and the todo reducer (the useReducer + localStorage todo page) of this
repository.

The browser store is modelled as an association list from string keys to
stored strings.  JSON serialization for a value type T is modelled by a
Serializer: stringify may fail (JSON.stringify throws on non-serializable
data) and parse may fail (JSON.parse throws on a corrupted string), both
returning Option.  Fallibility of the store primitives themselves
(getItem / setItem / removeItem throwing, e.g. quota or unavailability) is
an explicit Bool parameter of each operation.  Every operation returns,
besides its result, a Bool recording whether the catch branch logged a
console warning.
-/

namespace LocalStorage

/-- The persisted key-value store: an association list from string keys to
stored strings, mirroring the browser store at single-key granularity. -/
def Slots : Type := List (String × String)

instance : DecidableEq Slots := by
  unfold Slots
  infer_instance

/-- Read the slot for a key (localStorage.getItem): the stored string of the
first entry for that key, or none when absent. -/
def lookupSlot (s : Slots) (k : String) : Option String :=
  (List.find? (fun p => p.1 == k) s).map (fun p => p.2)

/-- Overwrite the slot for a key (localStorage.setItem). -/
def setSlot (s : Slots) (k v : String) : Slots :=
  (k, v) :: List.filter (fun p => !(p.1 == k)) s

/-- Remove the slot for a key (localStorage.removeItem). -/
def removeSlot (s : Slots) (k : String) : Slots :=
  List.filter (fun p => !(p.1 == k)) s

/-- JSON serialization for a value type T: stringify may fail
(JSON.stringify throws) and parse may fail (JSON.parse throws on a
corrupted string). -/
structure Serializer (T : Type) where
  stringify : T → Option String
  parse : String → Option T

/-- An argument to setStoredValue: either a literal replacement or a
function of the previous value, as React's state setter accepts. -/
inductive Update (T : Type) where
  | literal (v : T)
  | fn (f : T → T)

/-- React applies a state-setter argument: a function argument is applied
to the previous value, a literal replaces it. -/
def applyUpdate {T : Type} : Update T → T → T
  | Update.literal v, _ => v
  | Update.fn f, prev => f prev

/-- State of one hook instance: the in-memory mirror (the storedValue
useState cell) together with the store contents it interacts with. -/
structure HookState (T : Type) where
  storedValue : T
  slots : Slots
deriving DecidableEq

/-- The in-memory value handed back to the caller (first component of the
returned triple). -/
def get {T : Type} (st : HookState T) : T :=
  st.storedValue

/-- The useState initializer of useLocalStorage: try to read the slot; a
truthy stored string is parsed, a falsy one (absent slot, or the empty
string) yields the caller's default; any thrown error (read failure,
parse failure) is caught, a warning logged, and the default returned.
Returns the initial value and whether a warning was logged. -/
def initStoredValue {T : Type} (sz : Serializer T) (readOk : Bool)
    (slots : Slots) (key : String) (initialValue : T) : T × Bool :=
  if readOk then
    match lookupSlot slots key with
    | some item =>
        if item = "" then (initialValue, false)
        else
          match sz.parse item with
          | some v => (v, false)
          | none => (initialValue, true)
    | none => (initialValue, false)
  else (initialValue, true)

/-- Creating a hook instance on a key with a default: hydrate the
in-memory mirror from the store.  The store itself is unchanged. -/
def create {T : Type} (sz : Serializer T) (readOk : Bool)
    (slots : Slots) (key : String) (initialValue : T) : HookState T × Bool :=
  let r := initStoredValue sz readOk slots key initialValue
  (⟨r.1, slots⟩, r.2)

/-- The state setter returned by the hook: replaces the in-memory mirror
(synchronously, before any persistence effect runs). -/
def setStoredValue {T : Type} (u : Update T) (st : HookState T) : HookState T :=
  { st with storedValue := applyUpdate u st.storedValue }

/-- The useEffect sync of useLocalStorage: serialize the current in-memory
value and write it to the slot; if stringify or the store write throws,
the store is left unchanged and a warning is logged. -/
def writeEffect {T : Type} (sz : Serializer T) (writeOk : Bool)
    (key : String) (st : HookState T) : HookState T × Bool :=
  match sz.stringify st.storedValue with
  | none => (st, true)
  | some s =>
      if writeOk then ({ st with slots := setSlot st.slots key s }, false)
      else (st, true)

/-- The reset closure of useLocalStorage: set the in-memory mirror back to
the default, then try to remove the slot; a failing removal is caught and
logged, never surfaced. -/
def reset {T : Type} (removeOk : Bool) (initialValue : T) (key : String)
    (st : HookState T) : HookState T × Bool :=
  let st1 := { st with storedValue := initialValue }
  if removeOk then ({ st1 with slots := removeSlot st1.slots key }, false)
  else (st1, true)

/-- Decimal value of a digit character, none for a non-digit. -/
def digitVal (c : Char) : Option Nat :=
  if c.isDigit then some (c.toNat - 48) else none

/-- Parse a nonempty all-digit string as a Nat, none otherwise. -/
def natParse (s : String) : Option Nat :=
  if s.data = [] then none
  else
    s.data.foldl
      (fun acc c =>
        match acc, digitVal c with
        | some n, some d => some (n * 10 + d)
        | _, _ => none)
      (some 0)

/-- A concrete serializer for Nat used to instantiate the generic theorems
on concrete inputs. -/
def natSerializer : Serializer Nat where
  stringify n := some (toString n)
  parse s := natParse s

/-- A reset followed by the settling of the sync effect.  The effect has
dependency array [key, storedValue], so after reset commits the default
into the state cell the effect re-fires and rewrites the serialized
default into the slot — unless the value did not change, in which case
React bails out of the re-render and the effect does not re-run. -/
def resetAndSync {T : Type} [DecidableEq T] (sz : Serializer T)
    (removeOk writeOk : Bool) (d : T) (k : String) (st : HookState T) :
    HookState T :=
  if (reset removeOk d k st).1.storedValue = st.storedValue then
    (reset removeOk d k st).1
  else (writeEffect sz writeOk k (reset removeOk d k st).1).1

/-- A burst of synchronous setter calls, applied in call order. -/
def applySets {T : Type} (us : List (Update T)) (st : HookState T) : HookState T :=
  us.foldl (fun s u => setStoredValue u s) st

/-- The functional update set(prev => prev + 1). -/
def incr : Update Nat :=
  Update.fn (fun prev => prev + 1)

end LocalStorage

namespace Todos

/-- A todo item, as in the reducer-driven todo page. -/
structure Todo where
  id : Nat
  text : String
  completed : Bool
deriving DecidableEq, Repr

/-- The reducer's action union.  ADD_TODO carries the Date.now() timestamp
as an explicit argument since the reducer reads the ambient clock there. -/
inductive Action where
  | addTodo (payload : String) (now : Nat)
  | toggleTodo (payload : Nat)
  | deleteSelected
  | selectAll (payload : Bool)

/-- The todoReducer switch: append on ADD_TODO, toggle the matching id on
TOGGLE_TODO, drop completed todos on DELETE_SELECTED, set every completed
flag on SELECT_ALL. -/
def todoReducer (state : List Todo) (action : Action) : List Todo :=
  match action with
  | Action.addTodo payload now =>
      state ++ [{ id := now, text := payload, completed := false }]
  | Action.toggleTodo payload =>
      state.map (fun todo =>
        if todo.id = payload then { todo with completed := !todo.completed }
        else todo)
  | Action.deleteSelected =>
      state.filter (fun todo => !todo.completed)
  | Action.selectAll payload =>
      state.map (fun todo => { todo with completed := payload })

end Todos

namespace LocalStorage

/-- Helper: reading a slot right after overwriting it yields the written
string. -/
theorem lookupSlot_setSlot_self (s : Slots) (k v : String) :
    lookupSlot (setSlot s k v) k = some v := by
  simp [lookupSlot, setSlot, List.find?]

/-- Helper: after removing a slot, reading that key yields none. -/
theorem lookupSlot_removeSlot_self (s : Slots) (k : String) :
    lookupSlot (removeSlot s k) k = none := by
  simp only [lookupSlot, Option.map_eq_none', List.find?_eq_none, removeSlot,
    List.mem_filter]
  intro x hx
  simpa using hx.2

/-- Helper: a sync whose stringify succeeds overwrites the slot with the
serialized value and warns nothing. -/
theorem writeEffect_stringify_some {T : Type} (sz : Serializer T)
    (k : String) (st : HookState T) (s : String)
    (hs : sz.stringify st.storedValue = some s) :
    writeEffect sz true k st = (⟨st.storedValue, setSlot st.slots k s⟩, false) := by
  unfold writeEffect
  rw [hs]
  rfl

/-- C1: for a JSON-serializable value v (stringify succeeds with a nonempty
string that parses back to v), setting v, letting the write effect run, and
hydrating a fresh instance on the same key with any default returns v. -/
theorem C1_round_trip {T : Type} (sz : Serializer T) (slots : Slots)
    (k : String) (d d' v : T) (s : String)
    (hs : sz.stringify v = some s) (hne : s ≠ "") (hp : sz.parse s = some v) :
    get (create sz true
      (writeEffect sz true k
        (setStoredValue (Update.literal v) (create sz true slots k d).1)).1.slots
      k d').1 = v := by
  have hst : (setStoredValue (Update.literal v) (create sz true slots k d).1).storedValue
      = v := rfl
  have hw : (writeEffect sz true k
      (setStoredValue (Update.literal v) (create sz true slots k d).1)).1.slots
      = setSlot slots k s := by
    unfold writeEffect
    rw [hst, hs]
    rfl
  rw [hw]
  simp [create, get, initStoredValue, lookupSlot_setSlot_self, hne, hp]

/-- C1 witness: round trip at key "counter", value 5, defaults 0 and 0,
with the concrete Nat serializer. -/
theorem C1_round_trip_witness :
    get (create natSerializer true
      (writeEffect natSerializer true "counter"
        (setStoredValue (Update.literal 5)
          (create natSerializer true [] "counter" 0).1)).1.slots
      "counter" 0).1 = 5 :=
  C1_round_trip natSerializer [] "counter" 0 0 5 "5" rfl (by decide) (by decide)

/-- C2: with no persisted slot for the key, get() immediately after create
returns the caller's default. -/
theorem C2_hydration_fallback {T : Type} (sz : Serializer T) (slots : Slots)
    (k : String) (d : T) (h : lookupSlot slots k = none) :
    get (create sz true slots k d).1 = d := by
  simp [create, get, initStoredValue, h]

/-- C2 witness: hydration fallback on the empty store at key "counter"
with default 0. -/
theorem C2_hydration_fallback_witness :
    get (create natSerializer true [] "counter" 0).1 = 0 :=
  C2_hydration_fallback natSerializer [] "counter" 0 rfl

/-- C3 counterexample: resetting from value 5 with default 0 does not
leave the slot absent once the sync effect settles — the effect re-fires
on the state change and writes the serialized default back — and a second
settled reset (which does not re-trigger the effect) yields a different
state than a single one. -/
theorem C3_reset_claim_counterexample :
    lookupSlot (resetAndSync natSerializer true true 0 "counter"
      (⟨5, [("counter", "5")]⟩ : HookState Nat)).slots "counter" ≠ none ∧
    resetAndSync natSerializer true true 0 "counter"
        (resetAndSync natSerializer true true 0 "counter"
          ⟨5, [("counter", "5")]⟩)
      ≠ resetAndSync natSerializer true true 0 "counter"
          ⟨5, [("counter", "5")]⟩ := by
  decide

/-- C3 amended: reset sets the in-memory value back to the default, and a
failing removal is caught and logged rather than surfaced; but because the
sync effect re-fires on the state change, a settled reset from a
non-default value leaves the slot holding the serialized default rather
than absent, while a second settled reset (no state change, no effect
re-run) leaves the slot absent — double reset differs from single reset in
persisted state even though both leave the in-memory value at the
default. -/
theorem C3_reset_resync {T : Type} [DecidableEq T] (sz : Serializer T)
    (d : T) (k : String) (st : HookState T) (s : String)
    (hd : ¬ st.storedValue = d) (hs : sz.stringify d = some s) :
    ((reset false d k st).1.storedValue = d ∧ (reset false d k st).2 = true) ∧
    (resetAndSync sz true true d k st).storedValue = d ∧
    lookupSlot (resetAndSync sz true true d k st).slots k = some s ∧
    lookupSlot (resetAndSync sz true true d k
        (resetAndSync sz true true d k st)).slots k = none := by
  have h1 : resetAndSync sz true true d k st
      = ⟨d, setSlot (removeSlot st.slots k) k s⟩ := by
    unfold resetAndSync
    split
    · next h => exact absurd h.symm hd
    · next h =>
        rw [writeEffect_stringify_some sz k (reset true d k st).1 s hs]
        rfl
  have h2 : resetAndSync sz true true d k (resetAndSync sz true true d k st)
      = ⟨d, removeSlot (setSlot (removeSlot st.slots k) k s) k⟩ := by
    rw [h1]
    unfold resetAndSync
    split
    · rfl
    · next h => exact absurd rfl h
  refine ⟨⟨rfl, rfl⟩, ?_, ?_, ?_⟩
  · rw [h1]
  · rw [h1]
    exact lookupSlot_setSlot_self (removeSlot st.slots k) k s
  · rw [h2]
    exact lookupSlot_removeSlot_self (setSlot (removeSlot st.slots k) k s) k

/-- C3 amended witness: the settled reset behavior at key "counter", prior
value 5, default 0, with the concrete Nat serializer. -/
theorem C3_reset_resync_witness :
    (((reset false 0 "counter"
        (⟨5, [("counter", "5")]⟩ : HookState Nat)).1.storedValue = 0) ∧
      (reset false 0 "counter"
        (⟨5, [("counter", "5")]⟩ : HookState Nat)).2 = true) ∧
    (resetAndSync natSerializer true true 0 "counter"
      (⟨5, [("counter", "5")]⟩ : HookState Nat)).storedValue = 0 ∧
    lookupSlot (resetAndSync natSerializer true true 0 "counter"
      (⟨5, [("counter", "5")]⟩ : HookState Nat)).slots "counter" = some "0" ∧
    lookupSlot (resetAndSync natSerializer true true 0 "counter"
      (resetAndSync natSerializer true true 0 "counter"
        (⟨5, [("counter", "5")]⟩ : HookState Nat))).slots "counter" = none :=
  C3_reset_resync natSerializer 0 "counter" ⟨5, [("counter", "5")]⟩ "0"
    (by decide) rfl

/-- C4: if the store write fails during the sync after set(v), the call
still returns (no exception), the in-memory value is v, the store is
unchanged, and a warning is logged. -/
theorem C4_write_failure {T : Type} (sz : Serializer T) (k : String) (v : T)
    (st : HookState T) :
    get (writeEffect sz false k (setStoredValue (Update.literal v) st)).1 = v ∧
    (writeEffect sz false k (setStoredValue (Update.literal v) st)).1.slots
      = st.slots ∧
    (writeEffect sz false k (setStoredValue (Update.literal v) st)).2 = true := by
  unfold writeEffect
  cases h : sz.stringify (setStoredValue (Update.literal v) st).storedValue <;>
    simp [h, get, setStoredValue, applyUpdate]

/-- C5: after a successful sync the slot holds exactly the serialization of
the in-memory mirror (which the sync does not change); if serialization
fails, the state — mirror and slots alike — is left untouched by the sync. -/
theorem C5_sync_invariant {T : Type} (sz : Serializer T) (w : Bool)
    (k : String) (st : HookState T) :
    (∀ s : String, sz.stringify st.storedValue = some s →
      lookupSlot (writeEffect sz true k st).1.slots k = some s ∧
      (writeEffect sz true k st).1.storedValue = st.storedValue) ∧
    (sz.stringify st.storedValue = none → (writeEffect sz w k st).1 = st) := by
  constructor
  · intro s hs
    unfold writeEffect
    rw [hs]
    simp [lookupSlot_setSlot_self]
  · intro h
    unfold writeEffect
    rw [h]

/-- A serializer whose stringify always throws, to exercise the
serialization-failure branch on a concrete input. -/
def failingSerializer : Serializer Nat where
  stringify _ := none
  parse _ := none

/-- C5 witness: sync invariant at value 5 on the empty store with the Nat
serializer, and the failure branch with the always-failing serializer. -/
theorem C5_sync_invariant_witness :
    (lookupSlot (writeEffect natSerializer true "counter" ⟨5, []⟩).1.slots
        "counter" = some "5" ∧
      (writeEffect natSerializer true "counter"
        (⟨5, []⟩ : HookState Nat)).1.storedValue = 5) ∧
    (writeEffect failingSerializer true "counter"
        (⟨5, []⟩ : HookState Nat)).1 = ⟨5, []⟩ :=
  ⟨(C5_sync_invariant natSerializer true "counter" ⟨5, []⟩).1 "5" rfl,
    (C5_sync_invariant failingSerializer true "counter" ⟨5, []⟩).2 rfl⟩

/-- C6 counterexample: the empty string cannot be parsed (natParse, like
JSON.parse, fails on it), yet hydrating from a slot holding it logs no
warning — the truthiness test short-circuits before any parse attempt —
contradicting the claim that a warning is logged for every unparseable
stored string. -/
theorem C6_corrupted_claim_counterexample :
    natParse "" = none ∧
    get (create natSerializer true [("x", "")] "x" 7).1 = 7 ∧
    (create natSerializer true [("x", "")] "x" 7).2 = false := by
  decide

/-- C6 amended: if the persisted slot holds a string that cannot be parsed
back into T, create returns the default from get() and no error surfaces;
a warning is logged exactly when that string is nonempty — an empty
unparseable string is falsy under the truthiness test and falls back to
the default silently, like an absent slot. -/
theorem C6_corrupted_slot_amended {T : Type} (sz : Serializer T)
    (slots : Slots) (k s : String) (d : T)
    (hl : lookupSlot slots k = some s) (hp : sz.parse s = none) :
    get (create sz true slots k d).1 = d ∧
    (create sz true slots k d).2 = (if s = "" then false else true) := by
  by_cases h : s = ""
  · simp [create, get, initStoredValue, hl, h]
  · simp [create, get, initStoredValue, hl, h, hp]

/-- C6 amended witness: corrupted nonempty slot "oops" at key "x" with
default 7 warns; the conclusion's if evaluates to true there. -/
theorem C6_corrupted_slot_amended_witness :
    get (create natSerializer true [("x", "oops")] "x" 7).1 = 7 ∧
    (create natSerializer true [("x", "oops")] "x" 7).2 =
      (if "oops" = "" then false else true) :=
  C6_corrupted_slot_amended natSerializer [("x", "oops")] "x" "oops" 7
    (by decide) (by decide)

/-- Helper: a burst of n functional increments adds n to the mirror. -/
theorem applySets_replicate_incr (n : Nat) (st : HookState Nat) :
    (applySets (List.replicate n incr) st).storedValue = st.storedValue + n := by
  induction n generalizing st with
  | zero => rfl
  | succ m ih =>
    rw [List.replicate_succ]
    show (applySets (List.replicate m incr) (setStoredValue incr st)).storedValue = _
    rw [ih]
    simp [setStoredValue, applyUpdate, incr]
    omega

/-- C7: n synchronous set(prev => prev + 1) calls starting from 0 leave
the in-memory mirror at n — no update is lost. -/
theorem C7_functional_updates (n : Nat) (slots : Slots) :
    get (applySets (List.replicate n incr) ⟨0, slots⟩) = n := by
  have h := applySets_replicate_incr n ⟨0, slots⟩
  simpa [get] using h

/-- C8: a persisted slot holding the empty string hydrates exactly like an
absent slot — default value, no warning, store untouched — because the
stored item is tested for truthiness. -/
theorem C8_empty_string_slot {T : Type} (sz : Serializer T) (slots : Slots)
    (k : String) (d : T) (h : lookupSlot slots k = some "") :
    create sz true slots k d = (⟨d, slots⟩, false) := by
  simp [create, initStoredValue, h]

/-- C8 witness: empty-string slot at key "k" with default 3. -/
theorem C8_empty_string_slot_witness :
    create natSerializer true [("k", "")] "k" 3 = (⟨3, [("k", "")]⟩, false) :=
  C8_empty_string_slot natSerializer [("k", "")] "k" 3 (by decide)

end LocalStorage

namespace Todos

/-- C9: TOGGLE_TODO preserves length and order; at every position the id
and text are unchanged and the completed flag is negated exactly when the
id equals the payload. -/
theorem C9_toggle_frame (s : List Todo) (i : Nat) :
    (todoReducer s (Action.toggleTodo i)).length = s.length ∧
    ∀ (j : Nat) (t t' : Todo), s[j]? = some t →
      (todoReducer s (Action.toggleTodo i))[j]? = some t' →
      t'.id = t.id ∧ t'.text = t.text ∧
      t'.completed = (if t.id = i then !t.completed else t.completed) := by
  constructor
  · simp [todoReducer]
  · intro j t t' ht ht'
    have hmap : (todoReducer s (Action.toggleTodo i))[j]? =
        some (if t.id = i then { t with completed := !t.completed } else t) := by
      simp [todoReducer, List.getElem?_map, ht]
    rw [hmap, Option.some.injEq] at ht'
    subst ht'
    by_cases h : t.id = i <;> simp [h]

/-- C9 witness: toggling id 1 in a two-element list flips exactly the
first todo's completed flag, keeping its id and text. -/
theorem C9_toggle_frame_witness :
    (Todo.mk 1 "a" true).id = (Todo.mk 1 "a" false).id ∧
    (Todo.mk 1 "a" true).text = (Todo.mk 1 "a" false).text ∧
    (Todo.mk 1 "a" true).completed =
      (if (Todo.mk 1 "a" false).id = 1 then !(Todo.mk 1 "a" false).completed
        else (Todo.mk 1 "a" false).completed) :=
  (C9_toggle_frame [Todo.mk 1 "a" false, Todo.mk 2 "b" true] 1).2 0
    (Todo.mk 1 "a" false) (Todo.mk 1 "a" true) rfl (by decide)

/-- C10: DELETE_SELECTED returns a sublist of the input (elements
unchanged, original relative order) containing no completed todo, and
every not-completed todo keeps its multiplicity. -/
theorem C10_delete_selected (s : List Todo) :
    List.Sublist (todoReducer s Action.deleteSelected) s ∧
    (∀ t, t ∈ todoReducer s Action.deleteSelected → t.completed = false) ∧
    (∀ t : Todo, t.completed = false →
      List.count t (todoReducer s Action.deleteSelected) = List.count t s) := by
  refine ⟨?_, ?_, ?_⟩
  · exact List.filter_sublist s
  · intro t ht
    simp only [todoReducer, List.mem_filter] at ht
    simpa using ht.2
  · intro t h
    simp only [todoReducer]
    exact List.count_filter (by simp [h])

/-- C10 witness: deleting selected in a two-element list keeps the
not-completed todo with its multiplicity. -/
theorem C10_delete_selected_witness :
    List.count (Todo.mk 1 "a" false)
      (todoReducer [Todo.mk 1 "a" false, Todo.mk 2 "b" true]
        Action.deleteSelected)
      = List.count (Todo.mk 1 "a" false)
        [Todo.mk 1 "a" false, Todo.mk 2 "b" true] :=
  (C10_delete_selected [Todo.mk 1 "a" false, Todo.mk 2 "b" true]).2.2
    (Todo.mk 1 "a" false) rfl

end Todos
